import Mathlib

/-!
Shallow embedding of `src/weather.py`, the provider resolution and
normalization pipeline of the weather service.

Network calls (`httpx` requests wrapped in try/except in
`make_nws_request`, `make_geocode_request`, `make_openmeteo_request`)
are modelled by an oracle: an `Option Json` per potential request,
where `none` stands for any failure that the blanket `except` of the
helper converts to Python `None` (timeout, connection error, non-2xx
status via `raise_for_status`, JSON decode failure), and `some j`
stands for a 2xx response whose body decodes to the JSON value `j`.

Python-level behaviour outside those try blocks (dict indexing with
`[...]`, `.get`, truthiness, slicing, iteration, f-string
interpolation) is embedded exactly, with exceptions surfaced through
`Except PyErr`.
-/

namespace Weather

/-- JSON values as returned by `response.json()`. Numeric literals are
carried as their textual form: the program never computes with numbers,
it only interpolates them into output strings. -/
inductive Json where
  | null
  | jbool (b : Bool)
  | num (s : String)
  | str (s : String)
  | arr (elems : List Json)
  | obj (fields : List (String × Json))
deriving Repr

/-- Python exceptions that can escape the functions under study. -/
inductive PyErr where
  | keyError (k : String)
  | typeError (msg : String)
  | indexError
  | attributeError (msg : String)
deriving Repr, DecidableEq

/-- Lookup in a Python dict built from a JSON object: a duplicate key in
the source text leaves the last binding in the dict. -/
def dictGet? : List (String × Json) → String → Option Json
  | [], _ => none
  | (k, v) :: rest, key =>
    match dictGet? rest key with
    | some v' => some v'
    | none => if k = key then some v else none

/-- Truthiness of a numeric literal: Python `bool(x)` is `False` exactly
for zero; a decimal literal is zero when it has no nonzero digit. -/
def numIsTruthy (s : String) : Bool :=
  s.toList.any (fun c => c ≠ '0' && c ≠ '.' && c ≠ '-' && c ≠ '+')

/-- Python truthiness of a JSON value (`if data:`). -/
def truthy : Json → Bool
  | .null => false
  | .jbool b => b
  | .num s => numIsTruthy s
  | .str s => !s.isEmpty
  | .arr xs => !xs.isEmpty
  | .obj fs => !fs.isEmpty

mutual

/-- Python `repr()` of a JSON value (string escaping elided: the inputs
relevant here contain no quotes). -/
def pyRepr : Json → String
  | .null => "None"
  | .jbool true => "True"
  | .jbool false => "False"
  | .num s => s
  | .str s => "'" ++ s ++ "'"
  | .arr xs => "[" ++ pyReprList xs ++ "]"
  | .obj fs => "\x7b" ++ pyReprFields fs ++ "\x7d"

def pyReprList : List Json → String
  | [] => ""
  | [x] => pyRepr x
  | x :: y :: xs => pyRepr x ++ ", " ++ pyReprList (y :: xs)

def pyReprFields : List (String × Json) → String
  | [] => ""
  | [(k, v)] => "'" ++ k ++ "': " ++ pyRepr v
  | (k, v) :: p :: fs => "'" ++ k ++ "': " ++ pyRepr v ++ ", " ++ pyReprFields (p :: fs)

end

/-- Python `str()` as used by f-string interpolation. -/
def pyStr : Json → String
  | .str s => s
  | j => pyRepr j

/-- Python subscripting with a string key: `d["k"]`. A dict either
yields the value or raises `KeyError`; lists and strings reject string
indices with `TypeError`; the rest are not subscriptable. -/
def pyIndexStr (j : Json) (key : String) : Except PyErr Json :=
  match j with
  | .obj fs =>
    match dictGet? fs key with
    | some v => .ok v
    | none => .error (.keyError key)
  | .arr _ => .error (.typeError "list indices must be integers or slices, not str")
  | .str _ => .error (.typeError "string indices must be integers")
  | _ => .error (.typeError "object is not subscriptable")

/-- Python subscripting with a non-negative integer: `xs[i]`. -/
def pyIndexNat (j : Json) (i : Nat) : Except PyErr Json :=
  match j with
  | .arr xs =>
    match xs.get? i with
    | some v => .ok v
    | none => .error .indexError
  | .str s =>
    match s.toList.get? i with
    | some c => .ok (.str (String.singleton c))
    | none => .error .indexError
  | .obj _ => .error (.keyError (toString i))
  | _ => .error (.typeError "object is not subscriptable")

/-- Python `d.get(key, default)`: total on dicts; any other value has no
`get` attribute. -/
def pyGet (j : Json) (key : String) (default : Json) : Except PyErr Json :=
  match j with
  | .obj fs => .ok ((dictGet? fs key).getD default)
  | _ => .error (.attributeError "object has no attribute get")

/-- Python `key in j` for a string key: dict key test, list membership,
substring test on strings; `TypeError` otherwise. -/
def pyContains (key : String) (j : Json) : Except PyErr Bool :=
  match j with
  | .obj fs => .ok (dictGet? fs key).isSome
  | .arr xs => .ok (xs.any (fun x => match x with | .str s => s = key | _ => false))
  | .str s => .ok (key.isEmpty || (s.splitOn key).length ≥ 2)
  | _ => .error (.typeError "argument of type is not iterable")

/-- Python `len(j)`. -/
def pyLen (j : Json) : Except PyErr Nat :=
  match j with
  | .arr xs => .ok xs.length
  | .str s => .ok s.length
  | .obj fs => .ok (fs.map Prod.fst).eraseDups.length
  | _ => .error (.typeError "object has no len")

/-- Python slicing `j[:5]` followed by iteration, as in
`for period in periods[:5]`: lists and strings slice; a dict or scalar
raises `TypeError`. -/
def pySlice5 (j : Json) : Except PyErr (List Json) :=
  match j with
  | .arr xs => .ok (xs.take 5)
  | .str s => .ok ((s.toList.take 5).map (fun c => .str (String.singleton c)))
  | _ => .error (.typeError "unhashable type slice")

/-- Helper for Python `float(x)`: the digits/dot part of a float
literal (exponent and special forms elided: never produced by the
geocoding provider). `seenDot`/`seenDigit` track what was consumed. -/
def floatDigits : List Char → Bool → Bool → Bool
  | [], _, seenDigit => seenDigit
  | c :: rest, seenDot, seenDigit =>
    if c.isDigit then floatDigits rest seenDot true
    else if c = '.' then !seenDot && floatDigits rest true seenDigit
    else false

/-- Strip leading and trailing whitespace, as Python `float()` does
before parsing. -/
def stripChars (cs : List Char) : List Char :=
  ((cs.dropWhile Char.isWhitespace).reverse.dropWhile Char.isWhitespace).reverse

/-- Whether Python `float(s)` succeeds on the string `s` (surrounding
whitespace is stripped, an optional sign, digits with at most one dot). -/
def isFloatLit (s : String) : Bool :=
  match stripChars s.toList with
  | '+' :: rest => floatDigits rest false false
  | '-' :: rest => floatDigits rest false false
  | cs => floatDigits cs false false

/-- Python `float(j)`: numbers pass through, strings parse (or raise
`ValueError`, modelled as `none` since every call site catches it),
booleans coerce, everything else raises (also `none`). The value is kept
textual, like `Json.num`. -/
def pyFloat : Json → Option String
  | .num s => some s
  | .str s =>
    if isFloatLit s then some (String.mk (stripChars s.toList)) else none
  | .jbool true => some "1.0"
  | .jbool false => some "0.0"
  | _ => none

/-!
## `make_geocode_request` and `geocode_city`

`make_geocode_request` sends one Nominatim query and runs its parsing
inside the same `try`: any exception (network, HTTP status, JSON decode,
`data[0]` on a non-list, missing `lat`/`lon` keys, `float` failure)
returns `None`. The oracle argument `resp` is the decoded body of the
HTTP response, `none` when the request itself failed.
-/

/-- The structured geocoding result dict
`\x7b"latitude": float, "longitude": float, "display_name": ...\x7d`. -/
structure GeocodeResult where
  latitude : String
  longitude : String
  display_name : Json
deriving Repr

def make_geocode_request (resp : Option Json) : Option GeocodeResult :=
  match resp with
  | none => none
  | some data =>
    if !truthy data then none
    else
      match data with
      | .arr (item :: _) =>
        (match pyIndexStr item "lat", pyIndexStr item "lon" with
         | .ok latJ, .ok lonJ =>
           match pyFloat latJ, pyFloat lonJ with
           | some la, some lo =>
             (match pyGet item "display_name" .null with
              | .ok dn => some ⟨la, lo, dn⟩
              | .error _ => none)
           | _, _ => none
         | _, _ => none)
      | _ => none

/-- Return type of the `geocode_city` tool: a structured record or an
error string. -/
inductive GeocodeCityResult where
  | result (r : GeocodeResult)
  | errorText (s : String)
deriving Repr

def geocode_city (resp : Option Json) : GeocodeCityResult :=
  match make_geocode_request resp with
  | none => .errorText "Unable to geocode the provided location."
  | some r => .result r

/-!
## `format_alert` and `get_alerts`
-/

/-- `format_alert(feature)`: `feature["properties"]` is a raw
subscript (it can raise), then five `.get` accesses with placeholder
defaults feed one f-string. -/
def format_alert (feature : Json) : Except PyErr String := do
  let props ← pyIndexStr feature "properties"
  let ev ← pyGet props "event" (.str "Unknown")
  let area ← pyGet props "areaDesc" (.str "Unknown")
  let sev ← pyGet props "severity" (.str "Unknown")
  let desc ← pyGet props "description" (.str "No description available")
  let instr ← pyGet props "instruction" (.str "No specific instructions provided")
  return "\nEvent: " ++ pyStr ev ++ "\nArea: " ++ pyStr area ++ "\nSeverity: " ++ pyStr sev
    ++ "\nDescription: " ++ pyStr desc ++ "\nInstructions: " ++ pyStr instr ++ "\n"

/-- Python iteration `for x in j` as in the alert list comprehension. -/
def pyIter (j : Json) : Except PyErr (List Json) :=
  match j with
  | .arr xs => .ok xs
  | .str s => .ok (s.toList.map (fun c => .str (String.singleton c)))
  | .obj fs => .ok ((fs.map Prod.fst).eraseDups.map (fun k => .str k))
  | _ => .error (.typeError "object is not iterable")

/-- The `get_alerts` tool; `resp` is the oracle for the single
authoritative alerts request. -/
def get_alerts (resp : Option Json) : Except PyErr String :=
  match resp with
  | none => .ok "Unable to fetch alerts or no alerts found."
  | some data =>
    if !truthy data then .ok "Unable to fetch alerts or no alerts found."
    else do
      let mem ← pyContains "features" data
      if !mem then return "Unable to fetch alerts or no alerts found."
      else do
        let feats ← pyIndexStr data "features"
        if !truthy feats then return "No active alerts for this state."
        else do
          let items ← pyIter feats
          let alerts ← items.mapM format_alert
          return String.intercalate "\n---\n" alerts

/-!
## `format_openmeteo_forecast`
-/

/-- The "Current Weather" block of the Open-Meteo f-string, given the
four already-stringified `.get` results. -/
def openmeteoHead (t ws wd wc : String) : String :=
  "\nCurrent Weather:\nTemperature: " ++ t ++ "°C\nWind: " ++ ws
    ++ " km/h from " ++ wd ++ "°\nWeather Code: " ++ wc
    ++ " (see https://open-meteo.com/en/docs for codes)\n\nNext 3 Days Forecast:\n"

/-- One daily line of the Open-Meteo output, given the stringified
entries. -/
def omLine (date maxT minT code : String) : String :=
  date ++ ": High " ++ maxT ++ "°C, Low " ++ minT ++ "°C, Code " ++ code ++ "\n"

/-- Loop body of `format_openmeteo_forecast`: `daily["time"][i]` and
the three parallel arrays, all raw subscripts. -/
def dailyLine (daily : Json) (i : Nat) : Except PyErr String := do
  let timeA ← pyIndexStr daily "time"
  let date ← pyIndexNat timeA i
  let maxA ← pyIndexStr daily "temperature_2m_max"
  let maxT ← pyIndexNat maxA i
  let minA ← pyIndexStr daily "temperature_2m_min"
  let minT ← pyIndexNat minA i
  let codeA ← pyIndexStr daily "weathercode"
  let code ← pyIndexNat codeA i
  return omLine (pyStr date) (pyStr maxT) (pyStr minT) (pyStr code)

/-- `format_openmeteo_forecast(data)`: `current`/`daily` come from
`.get` with `\x7b\x7d` defaults, the current block uses `.get` with
`N/A` defaults, the loop runs `min(3, len(daily.get("time", [])))`
times appending one line per iteration. -/
def format_openmeteo_forecast (data : Json) : Except PyErr String := do
  let current ← pyGet data "current_weather" (.obj [])
  let daily ← pyGet data "daily" (.obj [])
  let t ← pyGet current "temperature" (.str "N/A")
  let ws ← pyGet current "windspeed" (.str "N/A")
  let wd ← pyGet current "winddirection" (.str "N/A")
  let wc ← pyGet current "weathercode" (.str "N/A")
  let timeVal ← pyGet daily "time" (.arr [])
  let n ← pyLen timeVal
  let lines ← (List.range (min 3 n)).mapM (dailyLine daily)
  return openmeteoHead (pyStr t) (pyStr ws) (pyStr wd) (pyStr wc) ++ String.join lines

/-!
## `get_forecast`
-/

/-- One NWS period block of the `get_forecast` f-string, given the
six already-stringified raw subscript results. -/
def periodBlock (name temp unit wspd wdir det : String) : String :=
  "\n" ++ name ++ ":\nTemperature: " ++ temp ++ "°" ++ unit
    ++ "\nWind: " ++ wspd ++ " " ++ wdir ++ "\nForecast: " ++ det ++ "\n"

/-- Loop body of `get_forecast`: six raw subscripts on a period, in
f-string evaluation order; any missing key raises `KeyError`. -/
def format_period (period : Json) : Except PyErr String := do
  let name ← pyIndexStr period "name"
  let temp ← pyIndexStr period "temperature"
  let unit ← pyIndexStr period "temperatureUnit"
  let wspd ← pyIndexStr period "windSpeed"
  let wdir ← pyIndexStr period "windDirection"
  let det ← pyIndexStr period "detailedForecast"
  return periodBlock (pyStr name) (pyStr temp) (pyStr unit) (pyStr wspd) (pyStr wdir)
    (pyStr det)

/-- Response oracle for one `get_forecast` call: the decoded bodies (or
failure) of the three requests the call can make. -/
structure Env where
  nwsPoints : Option Json
  nwsForecast : Option Json
  openmeteo : Option Json

/-- The outbound requests `get_forecast` can issue, recorded in order. -/
inductive Call where
  | nwsPoints
  | nwsForecast
  | openmeteo
deriving Repr, DecidableEq

/-- The `if points_data:` block of `get_forecast`: `none` means control
falls through to the Open-Meteo fallback, `some r` means the block
returns or raises. The trace lists the NWS requests issued. -/
def auth_attempt (env : Env) : Option (Except PyErr String) × List Call :=
  match env.nwsPoints with
  | none => (none, [.nwsPoints])
  | some pd =>
    if !truthy pd then (none, [.nwsPoints])
    else
      match pyIndexStr pd "properties" with
      | .error e => (some (.error e), [.nwsPoints])
      | .ok props =>
        match pyIndexStr props "forecast" with
        | .error e => (some (.error e), [.nwsPoints])
        | .ok _forecast_url =>
          match env.nwsForecast with
          | none => (none, [.nwsPoints, .nwsForecast])
          | some fd =>
            if !truthy fd then (none, [.nwsPoints, .nwsForecast])
            else
              (some (do
                let fprops ← pyIndexStr fd "properties"
                let periods ← pyIndexStr fprops "periods"
                let ps ← pySlice5 periods
                let blocks ← ps.mapM format_period
                return String.intercalate "\n---\n" blocks),
               [.nwsPoints, .nwsForecast])

/-- The fallback tail of `get_forecast`: `if openmeteo_data:` formats,
otherwise the fixed message. -/
def fallback_attempt (env : Env) : Except PyErr String :=
  match env.openmeteo with
  | some d =>
    if truthy d then format_openmeteo_forecast d
    else .ok "Unable to fetch forecast data from any provider."
  | none => .ok "Unable to fetch forecast data from any provider."

/-- The `get_forecast` tool: NWS first, Open-Meteo on fall-through.
Returns the result (a string, or the Python exception that escapes)
together with the trace of requests issued. -/
def get_forecast (env : Env) : Except PyErr String × List Call :=
  match auth_attempt env with
  | (some r, calls) => (r, calls)
  | (none, calls) => (fallback_attempt env, calls ++ [Call.openmeteo])

/-!
## Theorems
-/

/-- `mapM format_period` preserves length when it succeeds. -/
theorem format_period_mapM_length (l : List Json) (r : List String)
    (h : l.mapM format_period = Except.ok r) : r.length = l.length := by
  induction l generalizing r with
  | nil =>
    simp only [List.mapM_nil, pure, Except.pure] at h
    cases h
    rfl
  | cons a l ih =>
    rw [List.mapM_cons] at h
    cases hfa : format_period a with
    | error e => rw [hfa] at h; simp [Bind.bind, Except.bind] at h
    | ok s =>
      rw [hfa] at h
      cases hml : l.mapM format_period with
      | error e =>
        rw [hml] at h
        simp [Bind.bind, Except.bind] at h
      | ok rs =>
        rw [hml] at h
        simp only [Bind.bind, Except.bind, pure, Except.pure, Except.ok.injEq] at h
        subst h
        simp [ih rs hml]

/-- C8: formatting an alert feature whose `properties` dict is empty
(all optional fields absent) yields exactly the five placeholder lines
Event: Unknown / Area: Unknown / Severity: Unknown / Description: No
description available / Instructions: No specific instructions
provided, in that fixed order. -/
theorem format_alert_all_fields_absent :
    format_alert (.obj [("properties", .obj [])]) =
      .ok ("\nEvent: Unknown\nArea: Unknown\nSeverity: Unknown" ++
        "\nDescription: No description available" ++
        "\nInstructions: No specific instructions provided\n") := rfl

/-- C10: when both authoritative calls succeed but the `periods` list
is empty, `get_forecast` returns the empty string; the trace shows the
fallback provider is never called, so the fixed no-provider message is
not produced either. -/
theorem get_forecast_empty_periods_returns_empty (purl : Json) (om : Option Json) :
    get_forecast ⟨some (.obj [("properties", .obj [("forecast", purl)])]),
        some (.obj [("properties", .obj [("periods", .arr [])])]), om⟩ =
      (.ok "", [Call.nwsPoints, Call.nwsForecast]) := rfl

/-- C7: a fallback payload with five daily entries formats to the
current-weather block followed by exactly three daily lines — the first
three entries, in the order given by the provider. -/
theorem format_openmeteo_five_daily_entries (a b c d : Json)
    (t0 t1 t2 t3 t4 x0 x1 x2 x3 x4 n0 n1 n2 n3 n4 w0 w1 w2 w3 w4 : Json) :
    format_openmeteo_forecast (.obj
        [("current_weather", .obj [("temperature", a), ("windspeed", b),
            ("winddirection", c), ("weathercode", d)]),
         ("daily", .obj
           [("time", .arr [t0, t1, t2, t3, t4]),
            ("temperature_2m_max", .arr [x0, x1, x2, x3, x4]),
            ("temperature_2m_min", .arr [n0, n1, n2, n3, n4]),
            ("weathercode", .arr [w0, w1, w2, w3, w4])])]) =
      .ok (openmeteoHead (pyStr a) (pyStr b) (pyStr c) (pyStr d) ++
        String.join [omLine (pyStr t0) (pyStr x0) (pyStr n0) (pyStr w0),
          omLine (pyStr t1) (pyStr x1) (pyStr n1) (pyStr w1),
          omLine (pyStr t2) (pyStr x2) (pyStr n2) (pyStr w2)]) := rfl

/-- C6: when the authoritative forecast response carries seven periods
that all format, the `get_forecast` output is exactly the formatted
blocks of the first five, joined by the delimiter in provider order —
five blocks, periods six and seven dropped — and the fallback is never
called. -/
theorem get_forecast_seven_periods (purl : Json) (om : Option Json)
    (ps : List Json) (blocks : List String)
    (h7 : ps.length = 7)
    (hfmt : (ps.take 5).mapM format_period = .ok blocks) :
    get_forecast ⟨some (.obj [("properties", .obj [("forecast", purl)])]),
        some (.obj [("properties", .obj [("periods", .arr ps)])]), om⟩ =
      (.ok (String.intercalate "\n---\n" blocks),
       [Call.nwsPoints, Call.nwsForecast])
    ∧ blocks.length = 5 := by
  constructor
  · have hloop : List.mapM.loop format_period (List.take 5 ps) [] = Except.ok blocks :=
      hfmt
    simp [get_forecast, auth_attempt, truthy, pyIndexStr, dictGet?, pySlice5,
      Bind.bind, Except.bind, hloop]
    rfl
  · rw [format_period_mapM_length _ _ hfmt, List.length_take, h7]
    decide

/-- Witness for `get_forecast_seven_periods` at a concrete
seven-period response. -/
theorem get_forecast_seven_periods_witness :
    get_forecast ⟨some (.obj [("properties", .obj [("forecast", .str "u")])]),
        some (.obj [("properties", .obj [("periods", .arr (List.replicate 7
          (.obj [("name", .str "Tonight"), ("temperature", .num "45"),
            ("temperatureUnit", .str "F"), ("windSpeed", .str "5 mph"),
            ("windDirection", .str "NW"), ("detailedForecast", .str "Clear.")])))])]),
        none⟩ =
      (.ok (String.intercalate "\n---\n" (List.replicate 5
        (periodBlock "Tonight" "45" "F" "5 mph" "NW" "Clear."))),
       [Call.nwsPoints, Call.nwsForecast]) :=
  (get_forecast_seven_periods (.str "u") none
    (List.replicate 7
      (.obj [("name", .str "Tonight"), ("temperature", .num "45"),
        ("temperatureUnit", .str "F"), ("windSpeed", .str "5 mph"),
        ("windDirection", .str "NW"), ("detailedForecast", .str "Clear.")]))
    (List.replicate 5 (periodBlock "Tonight" "45" "F" "5 mph" "NW" "Clear."))
    rfl rfl).1

/-- C5: `get_alerts` distinguishes its empty cases — an unavailable
response or one without a `features` key yields the fixed
unable-to-fetch message, an empty `features` list yields the distinct
no-active-alerts message, and a non-empty list yields the formatted
alerts joined by the delimiter. -/
theorem get_alerts_cases (fs : List (String × Json)) (feats : List Json)
    (alerts : List String) :
    get_alerts none = .ok "Unable to fetch alerts or no alerts found."
    ∧ (dictGet? fs "features" = none →
        get_alerts (some (.obj fs)) = .ok "Unable to fetch alerts or no alerts found.")
    ∧ (dictGet? fs "features" = some (.arr []) →
        get_alerts (some (.obj fs)) = .ok "No active alerts for this state.")
    ∧ (dictGet? fs "features" = some (.arr feats) → feats ≠ [] →
        feats.mapM format_alert = .ok alerts →
        get_alerts (some (.obj fs)) = .ok (String.intercalate "\n---\n" alerts)) := by
  refine ⟨rfl, ?_, ?_, ?_⟩
  · intro h
    cases fs with
    | nil => rfl
    | cons p fs =>
      simp only [get_alerts, truthy, List.isEmpty_cons, Bool.not_false, Bind.bind,
        Except.bind, pyContains, h, Option.isSome_none, Bool.not_true, if_true]
      rfl
  · intro h
    have hne : fs ≠ [] := by
      intro hnil
      rw [hnil] at h
      simp [dictGet?] at h
    cases fs with
    | nil => exact absurd rfl hne
    | cons p fs =>
      simp only [get_alerts, truthy, List.isEmpty_cons, Bool.not_false, Bind.bind,
        Except.bind, pyContains, h, Option.isSome_some, Bool.not_true, pyIndexStr,
        List.isEmpty_nil]
      rfl
  · intro h hne hfmt
    have hne' : fs ≠ [] := by
      intro hnil
      rw [hnil] at h
      simp [dictGet?] at h
    cases fs with
    | nil => exact absurd rfl hne'
    | cons p fs =>
      have hfe : feats.isEmpty = false := by
        cases feats with
        | nil => exact absurd rfl hne
        | cons a l => rfl
      simp only [get_alerts, truthy, List.isEmpty_cons, Bool.not_false, Bind.bind,
        Except.bind, pyContains, h, Option.isSome_some, Bool.not_true, pyIndexStr,
        hfe, pyIter, hfmt]
      rfl

/-- Witness for `get_alerts_cases` at a concrete single-alert
response. -/
theorem get_alerts_cases_witness :
    get_alerts (some (.obj [("features",
        .arr [.obj [("properties", .obj [("event", .str "Storm")])]])])) =
      .ok (String.intercalate "\n---\n"
        ["\nEvent: Storm\nArea: Unknown\nSeverity: Unknown" ++
          "\nDescription: No description available" ++
          "\nInstructions: No specific instructions provided\n"]) :=
  (get_alerts_cases [("features",
      .arr [.obj [("properties", .obj [("event", .str "Storm")])]])]
    [.obj [("properties", .obj [("event", .str "Storm")])]] _).2.2.2
    rfl (by simp) rfl

/-- C9: whenever the geocode helper collapses to `None` — in particular
when the call fails outright, when the provider returns zero matches,
when the body is not the expected array shape, or when a coordinate
fails float parsing — `geocode_city` returns the fixed not-found error
string and never a structured result. -/
theorem geocode_city_not_found :
    (∀ resp, make_geocode_request resp = none →
      geocode_city resp = .errorText "Unable to geocode the provided location.")
    ∧ make_geocode_request none = none
    ∧ make_geocode_request (some (.arr [])) = none
    ∧ make_geocode_request (some (.str "unexpected body")) = none
    ∧ make_geocode_request
        (some (.arr [.obj [("lat", .str "not-a-number"), ("lon", .str "7.0")]])) = none := by
  refine ⟨?_, rfl, rfl, rfl, rfl⟩
  intro resp h
  simp [geocode_city, h]

/-- Witness for `geocode_city_not_found` at the failed-call input. -/
theorem geocode_city_not_found_witness :
    geocode_city none = .errorText "Unable to geocode the provided location." :=
  geocode_city_not_found.1 none rfl

/-- The NWS phase of `get_forecast` issues the points request once and
the forecast request at most once after it. -/
theorem auth_attempt_trace (env : Env) :
    (auth_attempt env).2 = [Call.nwsPoints]
    ∨ (auth_attempt env).2 = [Call.nwsPoints, Call.nwsForecast] := by
  rcases env with ⟨pts, fc, om⟩
  cases pts with
  | none => exact Or.inl rfl
  | some pd =>
    cases htr : truthy pd with
    | false => left; simp [auth_attempt, htr]
    | true =>
      cases hp : pyIndexStr pd "properties" with
      | error e => left; simp [auth_attempt, htr, hp]
      | ok props =>
        cases hf : pyIndexStr props "forecast" with
        | error e => left; simp [auth_attempt, htr, hp, hf]
        | ok u =>
          cases fc with
          | none => right; simp [auth_attempt, htr, hp, hf]
          | some fd =>
            cases htr2 : truthy fd with
            | false => right; simp [auth_attempt, htr, hp, hf, htr2]
            | true => right; simp [auth_attempt, htr, hp, hf, htr2]

/-- The Open-Meteo request is appended to the NWS trace exactly when
control falls through to the fallback. -/
theorem get_forecast_trace_split (env : Env) :
    (get_forecast env).2 = (auth_attempt env).2
    ∨ (get_forecast env).2 = (auth_attempt env).2 ++ [Call.openmeteo] := by
  unfold get_forecast
  rcases ha : auth_attempt env with ⟨r, calls⟩
  cases r with
  | none => right; simp
  | some x => left; simp

/-- C4: when the authoritative points call is unavailable,
`get_forecast` issues the fallback request before returning; every
request kind is issued at most once per call; and when the fallback is
also unavailable the result is the fixed no-provider message (a string,
not an exception). -/
theorem get_forecast_points_unavailable (env : Env) :
    (env.nwsPoints = none →
      (get_forecast env).2 = [Call.nwsPoints, Call.openmeteo]
      ∧ (env.openmeteo = none →
        (get_forecast env).1 = .ok "Unable to fetch forecast data from any provider."))
    ∧ ∀ c : Call, ((get_forecast env).2.count c) ≤ 1 := by
  constructor
  · intro hp
    have ha : auth_attempt env = (none, [Call.nwsPoints]) := by
      rcases env with ⟨pts, fc, om⟩
      cases hp
      rfl
    refine ⟨by simp [get_forecast, ha], ?_⟩
    intro ho
    rcases env with ⟨pts, fc, om⟩
    cases ho
    simp [get_forecast, ha, fallback_attempt]
  · intro c
    rcases get_forecast_trace_split env with h | h <;>
      rcases auth_attempt_trace env with h2 | h2 <;>
        rw [h, h2] <;> cases c <;> decide

/-- Witness for `get_forecast_points_unavailable` with both providers
unavailable. -/
theorem get_forecast_points_unavailable_witness :
    (get_forecast ⟨none, none, none⟩).2 = [Call.nwsPoints, Call.openmeteo]
    ∧ (get_forecast ⟨none, none, none⟩).1 =
      .ok "Unable to fetch forecast data from any provider." :=
  ⟨((get_forecast_points_unavailable ⟨none, none, none⟩).1 rfl).1,
   ((get_forecast_points_unavailable ⟨none, none, none⟩).1 rfl).2 rfl⟩

/-- C1 counterexample: a 2xx valid-JSON points response that lacks the
`properties` key does not collapse to Unavailable — `get_forecast`
raises `KeyError` instead of returning a string, and the fallback is
never consulted. -/
theorem get_forecast_missing_properties_raises :
    get_forecast ⟨some (.obj [("detail", .str "ok")]), none, none⟩ =
      (.error (.keyError "properties"), [Call.nwsPoints]) := rfl

/-- C1 amended: failures that the request helper catches (network
error, non-2xx status, malformed JSON) collapse to Unavailable, and
when every provider is unavailable `get_forecast` returns the fixed
message string with no exception; but a 2xx valid-JSON response lacking
an expected key — `properties` of either the points or the forecast
response, `forecast` inside the points `properties`, or `periods`
inside the forecast `properties` — makes a `KeyError` escape to the
caller. -/
theorem get_forecast_unavailable_collapse :
    (∀ env : Env, env.nwsPoints = none → env.openmeteo = none →
      (get_forecast env).1 = .ok "Unable to fetch forecast data from any provider.")
    ∧ (∀ (env : Env) (fs : List (String × Json)),
        env.nwsPoints = some (.obj fs) → fs ≠ [] →
        dictGet? fs "properties" = none →
        (get_forecast env).1 = .error (.keyError "properties"))
    ∧ (∀ (g : List (String × Json)) (fc om : Option Json),
        dictGet? g "forecast" = none →
        (get_forecast ⟨some (.obj [("properties", .obj g)]), fc, om⟩).1 =
          .error (.keyError "forecast"))
    ∧ (∀ (purl : Json) (ffs : List (String × Json)) (om : Option Json),
        ffs ≠ [] → dictGet? ffs "properties" = none →
        (get_forecast ⟨some (.obj [("properties", .obj [("forecast", purl)])]),
          some (.obj ffs), om⟩).1 = .error (.keyError "properties"))
    ∧ (∀ (purl : Json) (g : List (String × Json)) (om : Option Json),
        dictGet? g "periods" = none →
        (get_forecast ⟨some (.obj [("properties", .obj [("forecast", purl)])]),
          some (.obj [("properties", .obj g)]), om⟩).1 =
          .error (.keyError "periods")) := by
  refine ⟨?_, ?_, ?_, ?_, ?_⟩
  · intro env hp ho
    rcases env with ⟨pts, fc, om⟩
    cases hp
    cases ho
    rfl
  · intro env fs hp hne h
    rcases env with ⟨pts, fc, om⟩
    cases hp
    have htr : truthy (.obj fs) = true := by
      cases fs with
      | nil => exact absurd rfl hne
      | cons p fs => rfl
    simp [get_forecast, auth_attempt, htr, pyIndexStr, h]
  · intro g fc om h
    simp [get_forecast, auth_attempt, truthy, pyIndexStr, dictGet?, h]
  · intro purl ffs om hne h
    have hie : ffs.isEmpty = false := by
      cases ffs with
      | nil => exact absurd rfl hne
      | cons p ffs => rfl
    simp [get_forecast, auth_attempt, truthy, pyIndexStr, dictGet?, hie, h,
      Bind.bind, Except.bind]
  · intro purl g om h
    simp [get_forecast, auth_attempt, truthy, pyIndexStr, dictGet?, h,
      Bind.bind, Except.bind]

/-- Witness for `get_forecast_unavailable_collapse` at concrete
response sequences, one per missing key. -/
theorem get_forecast_unavailable_collapse_witness :
    (get_forecast ⟨none, none, none⟩).1 =
      .ok "Unable to fetch forecast data from any provider."
    ∧ (get_forecast ⟨some (.obj [("status", .num "200")]), none, none⟩).1 =
      .error (.keyError "properties")
    ∧ (get_forecast ⟨some (.obj [("properties", .obj [("gridId", .str "TOP")])]),
        none, none⟩).1 = .error (.keyError "forecast")
    ∧ (get_forecast ⟨some (.obj [("properties", .obj [("forecast", .str "u")])]),
        some (.obj [("type", .str "Feature")]), none⟩).1 =
      .error (.keyError "properties")
    ∧ (get_forecast ⟨some (.obj [("properties", .obj [("forecast", .str "u")])]),
        some (.obj [("properties", .obj [("updated", .str "t")])]), none⟩).1 =
      .error (.keyError "periods") :=
  ⟨get_forecast_unavailable_collapse.1 ⟨none, none, none⟩ rfl rfl,
   get_forecast_unavailable_collapse.2.1 ⟨some (.obj [("status", .num "200")]), none, none⟩
     [("status", .num "200")] rfl (by simp) rfl,
   get_forecast_unavailable_collapse.2.2.1 [("gridId", .str "TOP")] none none rfl,
   get_forecast_unavailable_collapse.2.2.2.1 (.str "u") [("type", .str "Feature")] none
     (by simp) rfl,
   get_forecast_unavailable_collapse.2.2.2.2 (.str "u") [("updated", .str "t")] none rfl⟩

/-- C2 counterexample: both authoritative lookups succeed but the
period list is empty; `get_forecast` returns the empty string without
attempting the fallback (whose response is available) and without the
fixed no-provider message. -/
theorem get_forecast_empty_periods_no_fallback :
    get_forecast ⟨some (.obj [("properties", .obj [("forecast", .str "u")])]),
        some (.obj [("properties", .obj [("periods", .arr [])])]),
        some (.obj [("current_weather", .obj [("temperature", .num "10")])])⟩ =
      (.ok "", [Call.nwsPoints, Call.nwsForecast]) := rfl

/-- C2 amended: `get_forecast` formats and returns the authoritative
result whenever both lookups return truthy JSON carrying the expected
keys — empty period lists included, in which case the result is the
empty string; it attempts the fallback client when the response at
either step is unavailable, and if the fallback is also unavailable it
returns the fixed unable-to-fetch-from-any-provider message. -/
theorem get_forecast_fallback_chain :
    (∀ (purl : Json) (om : Option Json) (ps : List Json) (blocks : List String),
      (ps.take 5).mapM format_period = .ok blocks →
      (get_forecast ⟨some (.obj [("properties", .obj [("forecast", purl)])]),
          some (.obj [("properties", .obj [("periods", .arr ps)])]), om⟩).1 =
        .ok (String.intercalate "\n---\n" blocks))
    ∧ (∀ env : Env, env.nwsPoints = none → Call.openmeteo ∈ (get_forecast env).2)
    ∧ (∀ (purl : Json) (om : Option Json),
        (get_forecast ⟨some (.obj [("properties", .obj [("forecast", purl)])]),
            none, om⟩).2 = [Call.nwsPoints, Call.nwsForecast, Call.openmeteo])
    ∧ (∀ env : Env, env.nwsPoints = none → env.openmeteo = none →
        (get_forecast env).1 = .ok "Unable to fetch forecast data from any provider.")
    ∧ (∀ purl : Json,
        (get_forecast ⟨some (.obj [("properties", .obj [("forecast", purl)])]),
            none, none⟩).1 = .ok "Unable to fetch forecast data from any provider.") := by
  refine ⟨?_, ?_, ?_, ?_, ?_⟩
  · intro purl om ps blocks hfmt
    have hloop : List.mapM.loop format_period (List.take 5 ps) [] = Except.ok blocks :=
      hfmt
    simp [get_forecast, auth_attempt, truthy, pyIndexStr, dictGet?, pySlice5,
      Bind.bind, Except.bind, hloop]
    rfl
  · intro env hp
    have ha : auth_attempt env = (none, [Call.nwsPoints]) := by
      rcases env with ⟨pts, fc, om⟩
      cases hp
      rfl
    simp [get_forecast, ha]
  · intro purl om
    rfl
  · intro env hp ho
    rcases env with ⟨pts, fc, om⟩
    cases hp
    cases ho
    rfl
  · intro purl
    rfl

/-- Witness for `get_forecast_fallback_chain` at concrete response
sequences. -/
theorem get_forecast_fallback_chain_witness :
    (get_forecast ⟨some (.obj [("properties", .obj [("forecast", .str "u")])]),
        some (.obj [("properties", .obj [("periods",
          .arr [.obj [("name", .str "Tonight"), ("temperature", .num "45"),
            ("temperatureUnit", .str "F"), ("windSpeed", .str "5 mph"),
            ("windDirection", .str "NW"), ("detailedForecast", .str "Clear.")]])])]),
        none⟩).1 =
      .ok (String.intercalate "\n---\n"
        [periodBlock "Tonight" "45" "F" "5 mph" "NW" "Clear."])
    ∧ Call.openmeteo ∈ (get_forecast ⟨none, none, none⟩).2
    ∧ (get_forecast ⟨none, none, none⟩).1 =
      .ok "Unable to fetch forecast data from any provider." :=
  ⟨get_forecast_fallback_chain.1 (.str "u") none
    [.obj [("name", .str "Tonight"), ("temperature", .num "45"),
      ("temperatureUnit", .str "F"), ("windSpeed", .str "5 mph"),
      ("windDirection", .str "NW"), ("detailedForecast", .str "Clear.")]]
    [periodBlock "Tonight" "45" "F" "5 mph" "NW" "Clear."] rfl,
   get_forecast_fallback_chain.2.1 ⟨none, none, none⟩ rfl,
   get_forecast_fallback_chain.2.2.2.1 ⟨none, none, none⟩ rfl rfl⟩

/-- C3 counterexample: the authoritative period formatter raises
`KeyError` on a period missing `name`, and the fallback formatter
raises `KeyError` when the daily block has dates but no
`temperature_2m_max` array — missing fields do not all degrade to a
placeholder. -/
theorem formatters_raise_on_missing_fields :
    format_period (.obj [("temperature", .num "45")]) = .error (.keyError "name")
    ∧ format_openmeteo_forecast (.obj [("current_weather", .obj []),
        ("daily", .obj [("time", .arr [.str "2024-01-01"])])]) =
      .error (.keyError "temperature_2m_max") := ⟨rfl, rfl⟩

/-- C3 amended: only the fallback current-weather block degrades — its
four scalar fields render as `N/A` when absent; a ForecastPeriod
missing a field makes the authoritative formatting raise `KeyError`,
and a fallback daily block with dates but a missing parallel array
also raises `KeyError`. -/
theorem openmeteo_current_missing_renders_na
    (cw dfs : List (String × Json))
    (h1 : dictGet? cw "temperature" = none) (h2 : dictGet? cw "windspeed" = none)
    (h3 : dictGet? cw "winddirection" = none) (h4 : dictGet? cw "weathercode" = none) :
    format_openmeteo_forecast (.obj [("current_weather", .obj cw),
        ("daily", .obj [("time", .arr [])])]) =
      .ok (openmeteoHead "N/A" "N/A" "N/A" "N/A")
    ∧ (∀ fs, dictGet? fs "name" = none →
        format_period (.obj fs) = .error (.keyError "name"))
    ∧ (dictGet? dfs "time" = some (.arr [.str "2024-01-01"]) →
        dictGet? dfs "temperature_2m_max" = none →
        format_openmeteo_forecast (.obj [("current_weather", .obj []),
          ("daily", .obj dfs)]) = .error (.keyError "temperature_2m_max")) := by
  refine ⟨?_, ?_, ?_⟩
  · simp [format_openmeteo_forecast, pyGet, dictGet?, h1, h2, h3, h4, pyStr,
      Bind.bind, Except.bind, pyLen]
    rfl
  · intro fs h
    simp [format_period, pyIndexStr, h, Bind.bind, Except.bind]
  · intro ht hm
    have hd : dailyLine (Json.obj dfs) 0 = .error (.keyError "temperature_2m_max") := by
      simp [dailyLine, pyIndexStr, pyIndexNat, ht, hm, Bind.bind, Except.bind]
    simp [format_openmeteo_forecast, pyGet, dictGet?, pyLen, ht,
      Bind.bind, Except.bind, show List.range 1 = [0] from rfl, List.mapM.loop, hd]

/-- Witness for `openmeteo_current_missing_renders_na` at concrete
payloads. -/
theorem openmeteo_current_missing_renders_na_witness :
    format_openmeteo_forecast (.obj [("current_weather", .obj [("time", .str "x")]),
        ("daily", .obj [("time", .arr [])])]) =
      .ok (openmeteoHead "N/A" "N/A" "N/A" "N/A")
    ∧ format_period (.obj []) = .error (.keyError "name")
    ∧ format_openmeteo_forecast (.obj [("current_weather", .obj []),
        ("daily", .obj [("time", .arr [.str "2024-01-01"]), ("units", .str "C")])]) =
      .error (.keyError "temperature_2m_max") := by
  have t := openmeteo_current_missing_renders_na [("time", .str "x")]
    [("time", .arr [.str "2024-01-01"]), ("units", .str "C")] rfl rfl rfl rfl
  exact ⟨t.1, t.2.1 [] rfl, t.2.2 rfl rfl⟩

end Weather
